import Mathlib

/-
Verification development for the news-youtube-api backend corpus.

The corpus consists of several drafts of the same Express server
(`server.js` and the unnamed parts).  The parts relevant to the claims are
shallowly embedded below:

* the provider router `callAI` (server.js variant and the part_002/part_003
  variant),
* the category resolution of the Naver scraper,
* the scraper extraction loops (server.js, part_001, part_003 section news,
  part_003 ranking),
* the JSON-expecting AI handlers (titles / thumbnail-copies) and the
  script-transform handler.

JavaScript idioms are modelled explicitly: an `Option String` stands for a
string value that may be `undefined`, and `falsyOpt` is JS truthiness on it
(absent or empty string); `jsOrStr` is the JS `||` operator on strings.
External effects (HTTP fetches, the JSON.parse runtime routine, environment
variables) are parameters of the embedded functions.
-/

namespace NewsYT

/-- JS truthiness test for a possibly-undefined string: `!x`. -/
def falsyOpt : Option String → Bool
  | none => true
  | some s => s = ""

/-- JS `a || b` on strings where the empty string is falsy. -/
def jsOrStr (a b : String) : String :=
  if a = "" then b else a

/-- JS `a || b` on possibly-undefined strings. -/
def jsOrOpt (a b : Option String) : Option String :=
  if falsyOpt a then b else a

/-- JS template interpolation of a possibly-undefined value. -/
def jsTpl : Option String → String
  | none => "undefined"
  | some s => s

/-- `String.toLowerCase()` (ASCII model identifiers only). -/
def lowerStr (s : String) : String :=
  String.mk (s.toList.map Char.toLower)

/-- `haystack.startsWith(pat)` over the character lists. -/
def startsWithL (s pat : String) : Bool :=
  pat.toList.isPrefixOf s.toList

/-- `haystack.includes(needle)`. -/
def containsSub (hay needle : String) : Bool :=
  hay.toList.tails.any (fun t => needle.toList.isPrefixOf t)

/-- `s.trim()`: strip leading and trailing whitespace. -/
def trimChars (s : String) : String :=
  String.mk (((s.toList.dropWhile Char.isWhitespace).reverse.dropWhile
      Char.isWhitespace).reverse)

/-- One pass of `replace(/\s+/g, ' ')`: every maximal whitespace run becomes
one space.  The boolean records whether the previous character was part of a
whitespace run. -/
def collapseWsGo : Bool → List Char → List Char
  | _, [] => []
  | prevWs, c :: cs =>
    if c.isWhitespace then
      if prevWs then collapseWsGo true cs else ' ' :: collapseWsGo true cs
    else c :: collapseWsGo false cs

/-- `s.replace(/\s+/g, ' ')`. -/
def collapseWs (s : String) : String :=
  String.mk (collapseWsGo false s.toList)

/-- `s.substring(0, n)`. -/
def takeStr (n : Nat) (s : String) : String :=
  String.mk (s.toList.take n)

/-- `s.replace(/[^0-9]/g, '')`. -/
def digitsOf (s : String) : String :=
  String.mk (s.toList.filter Char.isDigit)

/-- `s ? s.replace(/[^0-9]/g, '') || null : null`. -/
def digitsOrNone (s : String) : Option String :=
  if s = "" then none
  else if digitsOf s = "" then none
  else some (digitsOf s)

-- ==============================
-- Provider router (`callAI`)
-- ==============================

/-- The two upstream text-generation providers. -/
inductive Provider where
  | openai
  | gemini
deriving DecidableEq, Repr

/-- Outcome of the server.js `callAI` before any outbound HTTP request:
either the missing-key error, a dispatch to a provider together with the
trimmed key, or the unsupported-model error. -/
inductive RouteResult where
  | missingKey (msg : String)
  | routed (p : Provider) (cleanKey : String)
  | unsupported (msg : String)
deriving DecidableEq, Repr

/-- server.js `callAI`:
`if (!apiKey) throw 'API 키가 없습니다.'`, then trim the key, then dispatch
on `model.toLowerCase()`: contains `gpt` → OpenAI, else contains `gemini` →
Gemini, else throw the unsupported-model error. -/
def callAI_sjs (model : String) (apiKey : Option String) : RouteResult :=
  if falsyOpt apiKey then .missingKey "API 키가 없습니다."
  else
    let cleanKey := trimChars (apiKey.getD "")
    if containsSub (lowerStr model) "gpt" then .routed .openai cleanKey
    else if containsSub (lowerStr model) "gemini" then .routed .gemini cleanKey
    else .unsupported "지원하지 않는 AI 모델입니다."

/-- part_002/part_003 `callAI`: `m = (model || '').toLowerCase()`;
empty, contains `gpt`, or starts with `o` → OpenAI; contains `gemini` or
`flash` → Gemini; anything else defaults to OpenAI.  No key check happens
here; the provider functions resolve the key themselves. -/
def callAI_p2 (model : Option String) : Provider :=
  let m := lowerStr (model.getD "")
  if m = "" || containsSub m "gpt" || startsWithL m "o" then .openai
  else if containsSub m "gemini" || containsSub m "flash" then .gemini
  else .openai

/-- First step of part_002 `callOpenAI` (up to the outbound HTTP request):
`const key = apiKey || process.env.OPENAI_API_KEY; if (!key) throw ...`. -/
inductive OpenAICallStep where
  | missingKey (msg : String)
  | httpPost (key : String)
deriving DecidableEq, Repr

/-- part_002 `callOpenAI` key resolution, with the environment default as an
explicit parameter. -/
def callOpenAIKey_p2 (apiKey envKey : Option String) : OpenAICallStep :=
  if falsyOpt (jsOrOpt apiKey envKey) then
    .missingKey "OpenAI API 키가 설정되어 있지 않습니다."
  else .httpPost ((jsOrOpt apiKey envKey).getD "")

-- ==============================
-- Category resolution
-- ==============================

/-- server.js `categoryMap` object literal (label → section code). -/
def categoryMap_sjs (c : String) : Option String :=
  if c = "정치" then some "100"
  else if c = "경제" then some "101"
  else if c = "사회" then some "102"
  else if c = "생활/문화" then some "103"
  else if c = "세계" then some "104"
  else if c = "IT/과학" then some "105"
  else none

/-- server.js `const sid = categoryMap[category] || '100'`. -/
def resolveSid_sjs (category : String) : String :=
  (categoryMap_sjs category).getD "100"

/-- part_002/part_003 `labelToCode` table (includes the extra `생활` alias). -/
def labelToCode (raw : String) : Option String :=
  if raw = "정치" then some "100"
  else if raw = "경제" then some "101"
  else if raw = "사회" then some "102"
  else if raw = "생활/문화" then some "103"
  else if raw = "생활" then some "103"
  else if raw = "세계" then some "104"
  else if raw = "IT/과학" then some "105"
  else none

/-- `/^\d{3}$/.test(s)`. -/
def isDigit3 (s : String) : Bool :=
  s.length = 3 && s.toList.all Char.isDigit

/-- part_002/part_003 category resolution:
`sid = '100'; if (categoryOrCode) { raw = String(categoryOrCode).trim();
if (/^\d{3}$/.test(raw)) sid = raw; else if (labelToCode[raw]) sid = labelToCode[raw]; }`. -/
def resolveSid_v2 (categoryOrCode : Option String) : String :=
  if falsyOpt categoryOrCode then "100"
  else
    let raw := trimChars (categoryOrCode.getD "")
    if isDigit3 raw then raw
    else
      match labelToCode raw with
      | some code => code
      | none => "100"

-- ==============================
-- Scraper extraction (server.js / part_000 variant)
-- ==============================

/-- Data read from one `li` candidate by the server.js loop: the first
anchor's `title` attribute, its visible text, and its `href` attribute
(`none` models both a missing attribute and an empty selection). -/
structure LiCand where
  attrTitle : Option String
  text : String
  href : Option String
deriving DecidableEq, Repr

/-- A server.js `NewsItem`: `{ rank, title, link, summary }`. -/
structure NewsItem where
  rank : Nat
  title : String
  link : String
  summary : String
deriving DecidableEq, Repr

/-- server.js title resolution:
`$item.find('a').first().attr('title') || $item.find('a').first().text().trim()`. -/
def emitTitle_sjs (c : LiCand) : String :=
  match c.attrTitle with
  | some t => if t = "" then trimChars c.text else t
  | none => trimChars c.text

/-- `link.startsWith('http') ? link : 'https://news.naver.com' + link`. -/
def makeLink (href : String) : String :=
  if startsWithL href "http" then href else "https://news.naver.com" ++ href

/-- server.js extraction loop over the ranked `li` candidates:
`if (rank > 50) return false;` then
`if (title && link) news.push({ rank: rank++, title, link: ..., summary: title })`. -/
def scrapeLoop_sjs : List LiCand → Nat → List NewsItem
  | [], _ => []
  | c :: cs, rank =>
    if 50 < rank then []
    else
      match c.href with
      | none => scrapeLoop_sjs cs rank
      | some h =>
        if emitTitle_sjs c = "" ∨ h = "" then scrapeLoop_sjs cs rank
        else
          { rank := rank, title := emitTitle_sjs c, link := makeLink h,
            summary := emitTitle_sjs c } :: scrapeLoop_sjs cs (rank + 1)

/-- server.js `scrapeNaverNews`, with the outcome of the HTTP fetch + decode
step passed in explicitly (`.error` covers network errors, timeouts and
non-2xx responses, all of which reject the axios promise):
any failure inside the `try` block is replaced by `'뉴스 크롤링 실패'`. -/
def scrapeNaverNews_sjs (fetched : Except String (List LiCand)) :
    Except String (List NewsItem) :=
  match fetched with
  | .error _ => .error "뉴스 크롤링 실패"
  | .ok cands => .ok (scrapeLoop_sjs cands 1)

-- ==============================
-- Scraper extraction (part_001 variant)
-- ==============================

/-- part_001 candidate: the same anchor data together with the text of the
press element (`.rankingnews_name, .list_press`). -/
structure LiCandP1 where
  attrTitle : Option String
  text : String
  href : Option String
  pressText : String
deriving DecidableEq, Repr

/-- part_001 item: `{ rank, title, press, link, summary }`. -/
structure NewsItemP1 where
  rank : Nat
  title : String
  press : String
  link : String
  summary : String
deriving DecidableEq, Repr

/-- part_001 title resolution: `$link.attr('title') || $link.text().trim()`. -/
def emitTitle_p1 (c : LiCandP1) : String :=
  match c.attrTitle with
  | some t => if t = "" then trimChars c.text else t
  | none => trimChars c.text

/-- part_001 extraction loop:
`if (title && title.length > 5 && link) news.push({ rank: rank++,
title: title.substring(0, 100), press: press.substring(0, 20), link: ...,
summary: title })`. -/
def scrapeLoop_p1 : List LiCandP1 → Nat → List NewsItemP1
  | [], _ => []
  | c :: cs, rank =>
    if 50 < rank then []
    else
      match c.href with
      | none => scrapeLoop_p1 cs rank
      | some h =>
        if emitTitle_p1 c = "" ∨ ¬ 5 < (emitTitle_p1 c).length ∨ h = "" then
          scrapeLoop_p1 cs rank
        else
          { rank := rank,
            title := takeStr 100 (emitTitle_p1 c),
            press := takeStr 20 (jsOrStr (trimChars c.pressText) "언론사"),
            link := makeLink h,
            summary := emitTitle_p1 c } :: scrapeLoop_p1 cs (rank + 1)

-- ==============================
-- Scraper extraction (part_003 section-news variant)
-- ==============================

/-- One anchor element: visible text, `title` attribute, `href` attribute. -/
structure Anchor where
  text : String
  attrTitle : Option String
  href : Option String
deriving DecidableEq, Repr

/-- part_003 candidate `li`: the last `dt a` anchor inside the `dl`, the
last anchor of the whole `li` (fallback), and the texts of the press, date,
`dd` (summary) and comment elements. -/
structure Cand3 where
  dtA : Option Anchor
  liA : Option Anchor
  writingDl : String
  writingLi : String
  dateDl : String
  dateLi : String
  ddText : String
  spanCommentText : String
  aCommentText : String
deriving DecidableEq, Repr

/-- part_003 item: `{ rank, title, link, press, time, summary, comments }`. -/
structure NewsItem3 where
  rank : Nat
  title : String
  link : String
  press : String
  time : String
  summary : String
  comments : Option String
deriving DecidableEq, Repr

/-- `!$a.attr('href')`: the anchor's href is absent or empty. -/
def anchorHrefFalsy (a : Anchor) : Bool :=
  match a.href with
  | none => true
  | some h => h = ""

/-- part_003 anchor selection: take the last `dt a`; if it has no usable
href, fall back to the last anchor of the `li`. -/
def chooseAnchor (c : Cand3) : Option Anchor :=
  match c.dtA with
  | some a => if anchorHrefFalsy a then c.liA else some a
  | none => c.liA

/-- part_003 title resolution:
`($a.text() || $a.attr('title') || '').replace(/\s+/g, ' ').trim()` —
the visible text is preferred over the `title` attribute. -/
def resolveTitle3 (a : Anchor) : String :=
  trimChars (collapseWs (jsOrStr a.text (match a.attrTitle with
    | some t => t
    | none => "")))

/-- part_003 section-news extraction loop (limit 100, skips candidates with
no usable anchor, an empty resolved title, or the `동영상기사` placeholder). -/
def scrapeLoop_p3 : List Cand3 → Nat → List NewsItem3
  | [], _ => []
  | c :: cs, rank =>
    if 100 < rank then []
    else
      match chooseAnchor c with
      | none => scrapeLoop_p3 cs rank
      | some a =>
        if anchorHrefFalsy a then scrapeLoop_p3 cs rank
        else
          if resolveTitle3 a = "" ∨ resolveTitle3 a = "동영상기사" then
            scrapeLoop_p3 cs rank
          else
            { rank := rank,
              title := resolveTitle3 a,
              link := makeLink (a.href.getD ""),
              press := jsOrStr (trimChars c.writingDl) (trimChars c.writingLi),
              time := jsOrStr (trimChars c.dateDl) (trimChars c.dateLi),
              summary := trimChars (collapseWs c.ddText),
              comments := digitsOrNone (jsOrStr (trimChars c.spanCommentText)
                (trimChars c.aCommentText)) } :: scrapeLoop_p3 cs (rank + 1)

/-- part_003 `scrapeNaverNews` with the fetch outcome passed in explicitly:
failures become `'네이버 뉴스 수집 실패: ' + error.message`. -/
def scrapeNaverNews_p3 (fetched : Except String (List Cand3)) :
    Except String (List NewsItem3) :=
  match fetched with
  | .error e => .error ("네이버 뉴스 수집 실패: " ++ e)
  | .ok cands => .ok (scrapeLoop_p3 cands 1)

-- ==============================
-- Scraper extraction (part_003 ranking variant)
-- ==============================

/-- One ranking `li` candidate: `.list_title` text, first anchor text and
`title`/`href` attributes, and the views/time/comment texts. -/
structure RCand where
  listTitle : String
  aText : String
  aTitle : Option String
  href : Option String
  viewsText : String
  timeText : String
  commentText : String
deriving DecidableEq, Repr

/-- One `rankingnews_box`: the press-name texts and its `li` candidates. -/
structure RBox where
  nameText : String
  boxTitleAText : String
  items : List RCand
deriving DecidableEq, Repr

/-- Ranking item: `{ rank, title, link, press, category, views, time, comments }`. -/
structure RankItem where
  rank : Nat
  title : String
  link : String
  press : String
  category : String
  views : Option String
  time : String
  comments : Option String
deriving DecidableEq, Repr

/-- part_003 box press resolution:
`.rankingnews_name text || .rankingnews_box_title a text || '언론사 미상'`. -/
def rboxPress (b : RBox) : String :=
  jsOrStr (trimChars b.nameText) (jsOrStr (trimChars b.boxTitleAText) "언론사 미상")

/-- part_003 ranking title: `(.list_title text || a text || a title || '')`
then `.trim().replace(/\s+/g, ' ')`. -/
def rawTitleR (c : RCand) : String :=
  collapseWs (trimChars (jsOrStr c.listTitle (jsOrStr c.aText
    (match c.aTitle with | some t => t | none => ""))))

/-- part_003 inner ranking loop over one box's `li` elements; returns the
emitted items and the updated global rank.  `if (rank > 200) return false`
only breaks this inner loop. -/
def rboxLoop (press : String) : List RCand → Nat → List RankItem × Nat
  | [], rank => ([], rank)
  | c :: cs, rank =>
    if 200 < rank then ([], rank)
    else
      if rawTitleR c = "" ∨ c.href.getD "" = "" then rboxLoop press cs rank
      else
        ({ rank := rank,
           title := rawTitleR c,
           link := makeLink (c.href.getD ""),
           press := press,
           category := "랭킹",
           views := digitsOrNone (trimChars c.viewsText),
           time := trimChars c.timeText,
           comments := digitsOrNone (trimChars c.commentText) } ::
             (rboxLoop press cs (rank + 1)).1,
         (rboxLoop press cs (rank + 1)).2)

/-- part_003 outer ranking loop over the `rankingnews_box` elements; the
global rank threads through the boxes. -/
def rankingLoop : List RBox → Nat → List RankItem
  | [], _ => []
  | b :: bs, rank =>
    let boxed := rboxLoop (rboxPress b) b.items rank
    boxed.1 ++ rankingLoop bs boxed.2

-- ==============================
-- JSON repair helpers used by the titles / thumbnail handlers
-- ==============================

/-- The character `{` (written by code point to keep it out of literals). -/
def lbrace : Char := Char.ofNat 123

/-- The character `}`. -/
def rbrace : Char := Char.ofNat 125

/-- The backtick character. -/
def btick : Char := Char.ofNat 96

/-- Index of the first occurrence of a character. -/
def idxOfFirst (target : Char) : List Char → Option Nat
  | [] => none
  | c :: cs =>
    if c = target then some 0 else (idxOfFirst target cs).map (· + 1)

/-- Index of the last occurrence of a character. -/
def idxOfLast (target : Char) (cs : List Char) : Option Nat :=
  (idxOfFirst target cs.reverse).map (fun i => cs.length - 1 - i)

/-- `result.match(/\x7b[\s\S]*\x7d/)`: the greedy regex takes the span from
the first opening brace to the last closing brace, provided the latter comes
after the former; otherwise there is no match. -/
def jsonSpan (s : String) : Option String :=
  match idxOfFirst lbrace s.toList, idxOfLast rbrace s.toList with
  | some i, some j =>
    if i < j then some (String.mk ((s.toList.drop i).take (j - i + 1)))
    else none
  | _, _ => none

/-- Case-insensitive literal match of `pat` against a leading segment of the
input, returning the remainder on success. -/
def matchCI : List Char → List Char → Option (List Char)
  | [], s => some s
  | _ :: _, [] => none
  | p :: ps, c :: cs =>
    if Char.toLower c = Char.toLower p then matchCI ps cs else none

/-- Fuel-indexed removal of every (left-to-right, non-overlapping,
case-insensitive) occurrence of `pat`; with fuel at least the input length
this is JS `s.replace(pat-regex-gi, '')`. -/
def removeAllFuel (pat : List Char) : Nat → List Char → List Char
  | _, [] => []
  | 0, s => s
  | fuel + 1, c :: cs =>
    match matchCI pat (c :: cs) with
    | some rest =>
      if pat.isEmpty then c :: removeAllFuel pat fuel cs
      else removeAllFuel pat fuel rest
    | none => c :: removeAllFuel pat fuel cs

/-- `s.replace(/pat/gi, '')` for a literal pattern. -/
def removeAllCI (pat : List Char) (s : List Char) : List Char :=
  removeAllFuel pat s.length s

/-- part_002 fence stripping:
`result.replace(/(3 backticks)json/gi, '').replace(/(3 backticks)/g, '').trim()`. -/
def stripFences (s : String) : String :=
  trimChars (String.mk (removeAllCI [btick, btick, btick]
    (removeAllCI [btick, btick, btick, 'j', 's', 'o', 'n'] s.toList)))

-- ==============================
-- JSON-expecting handlers (titles / thumbnail-copies)
-- ==============================

/-- A JSON response body, as far as the claims need to distinguish shapes.
`passthrough` is `res.json(JSON.parse(...))` forwarding whatever object the
model produced; the object constructors are the explicitly built bodies. -/
inductive RespBody (α : Type) where
  | passthrough (v : α)
  | titlesObj (safeTitles clickbaitTitles : List String)
  | thumbsObj (emotional informational visual : List String)
  | errorObj (error : String)
deriving DecidableEq

/-- An HTTP response: status code and JSON body. -/
structure HttpResp (α : Type) where
  status : Nat
  body : RespBody α
deriving DecidableEq

/-- server.js `/api/ai/titles` handler.  The AI call outcome and the
`JSON.parse` runtime routine are parameters; the surrounding `try`/`catch`
turns any failure (AI error or parse exception) into the 200 fallback body
`{ safeTitles: ['에러 발생: 내용을 확인하세요'], clickbaitTitles: [] }`. -/
def titlesHandler_sjs {α : Type} (aiOutcome : Except String String)
    (parse : String → Option α) : HttpResp α :=
  match aiOutcome with
  | .error _ => ⟨200, .titlesObj ["에러 발생: 내용을 확인하세요"] []⟩
  | .ok result =>
    match parse ((jsonSpan result).getD result) with
    | some v => ⟨200, .passthrough v⟩
    | none => ⟨200, .titlesObj ["에러 발생: 내용을 확인하세요"] []⟩

/-- server.js `/api/ai/thumbnail-copies` handler; fallback body
`{ emotional: ['에러 발생'], informational: [], visual: [] }`. -/
def thumbHandler_sjs {α : Type} (aiOutcome : Except String String)
    (parse : String → Option α) : HttpResp α :=
  match aiOutcome with
  | .error _ => ⟨200, .thumbsObj ["에러 발생"] [] []⟩
  | .ok result =>
    match parse ((jsonSpan result).getD result) with
    | some v => ⟨200, .passthrough v⟩
    | none => ⟨200, .thumbsObj ["에러 발생"] [] []⟩

/-- The fields part_002 reads off the parsed titles object
(`parsed.safeTitles || []`, `parsed.clickbaitTitles || []`). -/
structure TitlesFields where
  safeTitles : Option (List String)
  clickbaitTitles : Option (List String)
deriving DecidableEq

/-- part_002 `/api/ai/titles` handler: validates `text`, strips Markdown
fences, extracts the brace span, and on `JSON.parse` failure responds with
status 500 and `{ error: 'AI 응답(JSON) 파싱에 실패했습니다.', raw }` (the
raw model output is echoed alongside; only the error string is modelled). -/
def titlesHandler_p2 (text : Option String) (aiOutcome : Except String String)
    (parse : String → Option TitlesFields) : HttpResp TitlesFields :=
  if falsyOpt text then ⟨400, .errorObj "제목을 만들 텍스트를 입력해주세요."⟩
  else
    match aiOutcome with
    | .error m => ⟨500, .errorObj m⟩
    | .ok raw =>
      let result := stripFences raw
      match parse ((jsonSpan result).getD result) with
      | none => ⟨500, .errorObj "AI 응답(JSON) 파싱에 실패했습니다."⟩
      | some parsed =>
        ⟨200, .titlesObj (parsed.safeTitles.getD []) (parsed.clickbaitTitles.getD [])⟩

/-- The fields part_002 reads off the parsed thumbnail object. -/
structure ThumbFields where
  emotional : Option (List String)
  informational : Option (List String)
  visual : Option (List String)
deriving DecidableEq

/-- part_002 `/api/ai/thumbnail-copies` handler: parse failure inside the
inner `try` responds 500 with `{ error: ..., raw }`; other thrown errors hit
the outer `catch`, which responds 500 with a fallback-shaped body. -/
def thumbHandler_p2 (text : Option String) (aiOutcome : Except String String)
    (parse : String → Option ThumbFields) : HttpResp ThumbFields :=
  if falsyOpt text then ⟨400, .errorObj "썸네일 카피를 만들 텍스트를 입력해주세요."⟩
  else
    match aiOutcome with
    | .error _ => ⟨500, .thumbsObj ["AI 응답 오류"] [] []⟩
    | .ok raw =>
      let result := stripFences raw
      match parse ((jsonSpan result).getD result) with
      | none => ⟨500, .errorObj "AI 응답(JSON) 파싱에 실패했습니다."⟩
      | some parsed =>
        ⟨200, .thumbsObj (parsed.emotional.getD []) (parsed.informational.getD [])
          (parsed.visual.getD [])⟩

-- ==============================
-- script-transform handlers (validation vs. direct router call)
-- ==============================

/-- What a handler does after looking at the request body: either it fails
the request with HTTP 400 and a message, or it reaches the router with a
system prompt, user payload, model and key. -/
inductive HandlerStep where
  | badRequest (msg : String)
  | callRouter (system : String) (user : Option String)
      (model apiKey : Option String)
deriving DecidableEq

/-- `true` iff the step is the 400 rejection. -/
def isBadRequest : HandlerStep → Bool
  | .badRequest _ => true
  | .callRouter _ _ _ _ => false

/-- server.js `/api/ai/script-transform`: no validation — the handler goes
straight to `callAI` with the interpolated system prompt, even when `text`
is absent. -/
def scriptTransformStep_sjs (text concept lengthOption model apiKey :
    Option String) : HandlerStep :=
  .callRouter ("유튜브 대본 작가입니다. 콘셉트:" ++ jsTpl concept ++
    ", 분량:" ++ jsTpl lengthOption ++ ". 한국어로 재구성하세요.")
    text model apiKey

/-- part_002 `/api/ai/script-transform` system prompt (template literal). -/
def scriptTransformSystem_p2 : String :=
  "\n당신은 유튜브 영상 대본 전문 편집자입니다.\n사용자가 제공한 원본 대본을 기반으로, 지시사항(instruction)에 맞게 구조를 정리하고 가독성을 높인 한국어 대본을 작성하세요.\n\n요구사항:\n- 말투는 자연스럽고, 영상에서 바로 읽을 수 있게 작성\n- 불필요한 반복/군더더기 제거\n- 도입/본론/정리 흐름이 자연스럽게 이어지게 구성\n- 타임코드나 장면 전환 표시가 필요하면 괄호로 간단히 표현\n\n반드시 한국어로 작성하세요.\n"

/-- part_002 `/api/ai/script-transform`: `if (!text) return res.status(400)
.json({ error: '재구성할 대본 텍스트를 입력해주세요.' })`, otherwise build the
prompts and call the router. -/
def scriptTransformStep_p2 (text instruction model apiKey : Option String) :
    HandlerStep :=
  if falsyOpt text then .badRequest "재구성할 대본 텍스트를 입력해주세요."
  else
    .callRouter scriptTransformSystem_p2
      (some ("\n[지시사항]\n" ++ jsOrStr (instruction.getD "") "(별도 지시사항 없음)" ++
        "\n\n[원본 대본]\n" ++ text.getD "" ++ "\n"))
      model apiKey

-- ==============================
-- Predicates used to state the claims
-- ==============================

/-- An absolute URL in the sense of the spec: scheme `http` or `https`
followed by `://` and the host part. -/
def absUrl (s : String) : Bool :=
  startsWithL s "http://" || startsWithL s "https://"

/-- The shapes an anchor `href` can take on the portal's pages: an absolute
`http(s)` URL or a site-relative path starting with `/`. -/
def hrefShapeOk (h : String) : Bool :=
  startsWithL h "http://" || startsWithL h "https://" || startsWithL h "/"

/-- All hrefs of a server.js candidate are well shaped. -/
def candHrefOk (c : LiCand) : Bool :=
  match c.href with
  | none => true
  | some h => hrefShapeOk h

/-- All hrefs of a part_003 anchor are well shaped. -/
def anchorShapeOk (a : Anchor) : Bool :=
  match a.href with
  | none => true
  | some h => hrefShapeOk h

/-- All hrefs of a part_003 candidate are well shaped. -/
def cand3HrefOk (c : Cand3) : Bool :=
  (match c.dtA with | none => true | some a => anchorShapeOk a) &&
  (match c.liA with | none => true | some a => anchorShapeOk a)

/-- A server.js candidate that the loop drops: no usable href or an empty
resolved title. -/
def liDropped (c : LiCand) : Bool :=
  match c.href with
  | none => true
  | some h => h = "" || emitTitle_sjs c = ""

/-- A part_003 candidate that the loop drops: no usable anchor, an empty
resolved title, or the video-article placeholder. -/
def c3Dropped (c : Cand3) : Bool :=
  match chooseAnchor c with
  | none => true
  | some a =>
    anchorHrefFalsy a || resolveTitle3 a = "" || resolveTitle3 a = "동영상기사"

-- ==============================
-- Helper lemmas
-- ==============================

theorem isPrefixOf_append_ext {p a : List Char} (b : List Char)
    (h : p.isPrefixOf a = true) : p.isPrefixOf (a ++ b) = true := by
  rw [List.isPrefixOf_iff_prefix] at h ⊢
  exact h.trans (List.prefix_append a b)

theorem startsWithL_append {a : String} (b : String) {p : String}
    (h : startsWithL a p = true) : startsWithL (a ++ b) p = true := by
  unfold startsWithL at h ⊢
  have hab : (a ++ b).toList = a.toList ++ b.toList := rfl
  rw [hab]
  exact isPrefixOf_append_ext _ h

theorem startsWithL_weaken {s p q : String} (hpq : startsWithL p q = true)
    (hsp : startsWithL s p = true) : startsWithL s q = true := by
  unfold startsWithL at hpq hsp ⊢
  rw [List.isPrefixOf_iff_prefix] at hpq hsp ⊢
  exact hpq.trans hsp

theorem startsWith_slash_not_http {h : String}
    (hs : startsWithL h "/" = true) : startsWithL h "http" = false := by
  unfold startsWithL at hs ⊢
  rw [List.isPrefixOf_iff_prefix] at hs
  obtain ⟨t, ht⟩ := hs
  have : h.toList = '/' :: t := by simpa using ht.symm
  rw [this]
  rfl

/-- Resolving a well-shaped href through `makeLink` yields an absolute URL. -/
theorem absUrl_makeLink {h : String} (hs : hrefShapeOk h = true) :
    absUrl (makeLink h) = true := by
  unfold hrefShapeOk at hs
  simp only [Bool.or_eq_true] at hs
  rcases hs with (hhttp | hhttps) | hslash
  · have hh : startsWithL h "http" = true :=
      startsWithL_weaken (by decide) hhttp
    simp [makeLink, absUrl, hh, hhttp]
  · have hh : startsWithL h "http" = true :=
      startsWithL_weaken (by decide) hhttps
    simp [makeLink, absUrl, hh, hhttps]
  · have hh : startsWithL h "http" = false := startsWith_slash_not_http hslash
    have hpre : startsWithL ("https://news.naver.com" ++ h) "https://" = true :=
      startsWithL_append h (by decide)
    simp [makeLink, absUrl, hh, hpre]

/-- `scrapeLoop_sjs` past the cap is empty. -/
theorem scrapeLoop_sjs_stop (cs : List LiCand) (r : Nat) (hr : 50 < r) :
    scrapeLoop_sjs cs r = [] := by
  cases cs <;> simp [scrapeLoop_sjs, hr]

/-- Rank fields of the server.js loop are the emission order starting at `r`. -/
theorem scrapeLoop_sjs_rank_map (cs : List LiCand) (r : Nat) :
    (scrapeLoop_sjs cs r).map NewsItem.rank =
      List.range' r (scrapeLoop_sjs cs r).length := by
  induction cs generalizing r with
  | nil => simp [scrapeLoop_sjs]
  | cons c cs ih =>
    simp only [scrapeLoop_sjs]
    split
    · simp
    · split
      · exact ih r
      · split
        · exact ih r
        · simp only [List.map_cons, List.length_cons]
          rw [ih (r + 1)]
          rfl

/-- At most `51 - r` items are emitted from rank `r` on. -/
theorem scrapeLoop_sjs_length (cs : List LiCand) (r : Nat) :
    (scrapeLoop_sjs cs r).length ≤ 51 - r := by
  induction cs generalizing r with
  | nil => simp [scrapeLoop_sjs]
  | cons c cs ih =>
    simp only [scrapeLoop_sjs]
    split
    · simp
    · split
      · exact ih r
      · split
        · exact ih r
        · simp only [List.length_cons]
          have := ih (r + 1)
          omega

/-- Every item the server.js loop emits comes from a candidate with a
non-empty href and carries its non-empty resolved title, its resolved link
and the title duplicated as summary. -/
theorem scrapeLoop_sjs_shape (cs : List LiCand) (r : Nat) (it : NewsItem)
    (hit : it ∈ scrapeLoop_sjs cs r) :
    ∃ c ∈ cs, ∃ h, c.href = some h ∧ h ≠ "" ∧
      it.title = emitTitle_sjs c ∧ it.title ≠ "" ∧
      it.link = makeLink h ∧ it.summary = emitTitle_sjs c := by
  induction cs generalizing r with
  | nil => simp [scrapeLoop_sjs] at hit
  | cons c cs ih =>
    simp only [scrapeLoop_sjs] at hit
    split at hit
    · simp at hit
    · split at hit
      · obtain ⟨c', hc', rest⟩ := ih r hit
        exact ⟨c', List.mem_cons_of_mem c hc', rest⟩
      · next h hh =>
        split at hit
        · obtain ⟨c', hc', rest⟩ := ih r hit
          exact ⟨c', List.mem_cons_of_mem c hc', rest⟩
        · next hcond =>
          push_neg at hcond
          rcases List.mem_cons.mp hit with heq | hmem
          · subst heq
            exact ⟨c, List.mem_cons_self c cs, h, hh, hcond.2, rfl, hcond.1,
              rfl, rfl⟩
          · obtain ⟨c', hc', rest⟩ := ih (r + 1) hmem
            exact ⟨c', List.mem_cons_of_mem c hc', rest⟩

/-- A dropped candidate leaves the server.js loop's output unchanged. -/
theorem scrapeLoop_sjs_skip (c : LiCand) (cs : List LiCand) (r : Nat)
    (hc : liDropped c = true) :
    scrapeLoop_sjs (c :: cs) r = scrapeLoop_sjs cs r := by
  by_cases hr : 50 < r
  · rw [scrapeLoop_sjs_stop (c :: cs) r hr, scrapeLoop_sjs_stop cs r hr]
  · cases hh : c.href with
    | none => simp [scrapeLoop_sjs, if_neg hr, hh]
    | some h =>
      have hc' : emitTitle_sjs c = "" ∨ h = "" := by
        unfold liDropped at hc
        rw [hh] at hc
        simpa [Or.comm] using hc
      simp [scrapeLoop_sjs, if_neg hr, hh, if_pos hc']

/-- If every candidate is dropped, the server.js loop emits nothing. -/
theorem scrapeLoop_sjs_dropAll (cs : List LiCand) (r : Nat)
    (hall : ∀ c ∈ cs, liDropped c = true) : scrapeLoop_sjs cs r = [] := by
  induction cs generalizing r with
  | nil => simp [scrapeLoop_sjs]
  | cons c cs ih =>
    rw [scrapeLoop_sjs_skip c cs r (hall c (List.mem_cons_self c cs))]
    exact ih r (fun c' hc' => hall c' (List.mem_cons_of_mem c hc'))

/-- `scrapeLoop_p3` past the cap is empty. -/
theorem scrapeLoop_p3_stop (cs : List Cand3) (r : Nat) (hr : 100 < r) :
    scrapeLoop_p3 cs r = [] := by
  cases cs <;> simp [scrapeLoop_p3, hr]

/-- Every item the part_003 section loop emits comes from a candidate whose
chosen anchor has a usable href, and carries that anchor's non-empty
resolved title and its resolved link. -/
theorem scrapeLoop_p3_shape (cs : List Cand3) (r : Nat) (it : NewsItem3)
    (hit : it ∈ scrapeLoop_p3 cs r) :
    ∃ c ∈ cs, ∃ a, chooseAnchor c = some a ∧ anchorHrefFalsy a = false ∧
      it.title = resolveTitle3 a ∧ it.title ≠ "" ∧
      it.link = makeLink (a.href.getD "") := by
  induction cs generalizing r with
  | nil => simp [scrapeLoop_p3] at hit
  | cons c cs ih =>
    simp only [scrapeLoop_p3] at hit
    split at hit
    · simp at hit
    · split at hit
      · obtain ⟨c', hc', rest⟩ := ih r hit
        exact ⟨c', List.mem_cons_of_mem c hc', rest⟩
      · next a hch =>
        split at hit
        · obtain ⟨c', hc', rest⟩ := ih r hit
          exact ⟨c', List.mem_cons_of_mem c hc', rest⟩
        · next hf =>
          split at hit
          · obtain ⟨c', hc', rest⟩ := ih r hit
            exact ⟨c', List.mem_cons_of_mem c hc', rest⟩
          · next hcond =>
            push_neg at hcond
            rcases List.mem_cons.mp hit with heq | hmem
            · subst heq
              exact ⟨c, List.mem_cons_self c cs, a, hch, by simpa using hf,
                rfl, hcond.1, rfl⟩
            · obtain ⟨c', hc', rest⟩ := ih (r + 1) hmem
              exact ⟨c', List.mem_cons_of_mem c hc', rest⟩

/-- A dropped candidate leaves the part_003 loop's output unchanged. -/
theorem scrapeLoop_p3_skip (c : Cand3) (cs : List Cand3) (r : Nat)
    (hc : c3Dropped c = true) :
    scrapeLoop_p3 (c :: cs) r = scrapeLoop_p3 cs r := by
  by_cases hr : 100 < r
  · rw [scrapeLoop_p3_stop (c :: cs) r hr, scrapeLoop_p3_stop cs r hr]
  · cases hch : chooseAnchor c with
    | none => simp [scrapeLoop_p3, if_neg hr, hch]
    | some a =>
      unfold c3Dropped at hc
      rw [hch] at hc
      simp only [Bool.or_eq_true, decide_eq_true_eq] at hc
      by_cases hf : anchorHrefFalsy a = true
      · simp [scrapeLoop_p3, if_neg hr, hch, hf]
      · have hf' : anchorHrefFalsy a = false := by
          simpa using hf
        have ht : resolveTitle3 a = "" ∨ resolveTitle3 a = "동영상기사" := by
          tauto
        simp [scrapeLoop_p3, if_neg hr, hch, hf', if_pos ht]

/-- If every candidate is dropped, the part_003 loop emits nothing. -/
theorem scrapeLoop_p3_dropAll (cs : List Cand3) (r : Nat)
    (hall : ∀ c ∈ cs, c3Dropped c = true) : scrapeLoop_p3 cs r = [] := by
  induction cs generalizing r with
  | nil => simp [scrapeLoop_p3]
  | cons c cs ih =>
    rw [scrapeLoop_p3_skip c cs r (hall c (List.mem_cons_self c cs))]
    exact ih r (fun c' hc' => hall c' (List.mem_cons_of_mem c hc'))

/-- Anchors delivered by `chooseAnchor` keep the candidate's href shape. -/
theorem chooseAnchor_shapeOk {c : Cand3} {a : Anchor}
    (hok : cand3HrefOk c = true) (hch : chooseAnchor c = some a) :
    anchorShapeOk a = true := by
  unfold cand3HrefOk at hok
  rw [Bool.and_eq_true] at hok
  obtain ⟨hok1, hok2⟩ := hok
  unfold chooseAnchor at hch
  split at hch
  · next a1 hd =>
    split at hch
    · rw [hch] at hok2
      simpa using hok2
    · injection hch with h1
      subst h1
      rw [hd] at hok1
      simpa using hok1
  · next hd =>
    rw [hch] at hok2
    simpa using hok2

/-- A non-falsy anchor href is a present, non-empty string. -/
theorem anchorHref_of_notFalsy {a : Anchor} (hf : anchorHrefFalsy a = false) :
    ∃ h, a.href = some h ∧ h ≠ "" := by
  unfold anchorHrefFalsy at hf
  cases hh : a.href with
  | none => rw [hh] at hf; simp at hf
  | some h =>
    rw [hh] at hf
    simp at hf
    exact ⟨h, rfl, hf⟩

/-- Shape of the href inside a well-shaped anchor. -/
theorem hrefShapeOk_of_anchor {a : Anchor} {h : String}
    (hs : anchorShapeOk a = true) (hh : a.href = some h) :
    hrefShapeOk h = true := by
  unfold anchorShapeOk at hs
  rw [hh] at hs
  simpa using hs

/-- `scrapeLoop_p1` past the cap is empty. -/
theorem scrapeLoop_p1_stop (cs : List LiCandP1) (r : Nat) (hr : 50 < r) :
    scrapeLoop_p1 cs r = [] := by
  cases cs <;> simp [scrapeLoop_p1, hr]

/-- Every item the part_001 loop emits carries the truncated title and the
untruncated resolved title as summary. -/
theorem scrapeLoop_p1_shape (cs : List LiCandP1) (r : Nat) (it : NewsItemP1)
    (hit : it ∈ scrapeLoop_p1 cs r) :
    ∃ c ∈ cs, it.title = takeStr 100 (emitTitle_p1 c) ∧
      it.summary = emitTitle_p1 c := by
  induction cs generalizing r with
  | nil => simp [scrapeLoop_p1] at hit
  | cons c cs ih =>
    simp only [scrapeLoop_p1] at hit
    split at hit
    · simp at hit
    · split at hit
      · obtain ⟨c', hc', rest⟩ := ih r hit
        exact ⟨c', List.mem_cons_of_mem c hc', rest⟩
      · split at hit
        · obtain ⟨c', hc', rest⟩ := ih r hit
          exact ⟨c', List.mem_cons_of_mem c hc', rest⟩
        · rcases List.mem_cons.mp hit with heq | hmem
          · subst heq
            exact ⟨c, List.mem_cons_self c cs, rfl, rfl⟩
          · obtain ⟨c', hc', rest⟩ := ih (r + 1) hmem
            exact ⟨c', List.mem_cons_of_mem c hc', rest⟩

/-- `List.range'` with step 1 concatenates over summed lengths. -/
theorem range1_append (s m n : Nat) :
    List.range' s m ++ List.range' (s + m) n = List.range' s (m + n) := by
  induction m generalizing s with
  | zero => simp
  | succ m ih =>
    have hs : s + (m + 1) = (s + 1) + m := by omega
    have hmn : m + 1 + n = (m + n) + 1 := by omega
    rw [hs, hmn]
    show s :: (List.range' (s + 1) m ++ List.range' ((s + 1) + m) n) =
      s :: List.range' (s + 1) (m + n)
    rw [ih (s + 1)]

/-- The inner ranking loop returns the starting rank advanced by the number
of emitted items. -/
theorem rboxLoop_snd (p : String) (cs : List RCand) (r : Nat) :
    (rboxLoop p cs r).2 = r + (rboxLoop p cs r).1.length := by
  induction cs generalizing r with
  | nil => simp [rboxLoop]
  | cons c cs ih =>
    simp only [rboxLoop]
    split
    · simp
    · split
      · exact ih r
      · simp only [List.length_cons]
        rw [ih (r + 1)]
        omega

/-- Rank fields of the inner ranking loop are the emission order. -/
theorem rboxLoop_rank_map (p : String) (cs : List RCand) (r : Nat) :
    (rboxLoop p cs r).1.map RankItem.rank =
      List.range' r (rboxLoop p cs r).1.length := by
  induction cs generalizing r with
  | nil => simp [rboxLoop]
  | cons c cs ih =>
    simp only [rboxLoop]
    split
    · simp
    · split
      · exact ih r
      · simp only [List.map_cons, List.length_cons]
        rw [ih (r + 1)]
        rfl

/-- At most `201 - r` items are emitted by one box from rank `r` on. -/
theorem rboxLoop_length (p : String) (cs : List RCand) (r : Nat) :
    (rboxLoop p cs r).1.length ≤ 201 - r := by
  induction cs generalizing r with
  | nil => simp [rboxLoop]
  | cons c cs ih =>
    simp only [rboxLoop]
    split
    · simp
    · split
      · exact ih r
      · simp only [List.length_cons]
        have := ih (r + 1)
        omega

/-- Rank fields of the whole ranking scrape are the emission order. -/
theorem rankingLoop_rank_map (bs : List RBox) (r : Nat) :
    (rankingLoop bs r).map RankItem.rank =
      List.range' r (rankingLoop bs r).length := by
  induction bs generalizing r with
  | nil => simp [rankingLoop]
  | cons b bs ih =>
    simp only [rankingLoop, List.map_append, List.length_append]
    rw [rboxLoop_rank_map, rboxLoop_snd, ih]
    exact range1_append r _ _

/-- The whole ranking scrape emits at most `201 - r` items from rank `r`. -/
theorem rankingLoop_length (bs : List RBox) (r : Nat) :
    (rankingLoop bs r).length ≤ 201 - r := by
  induction bs generalizing r with
  | nil => simp [rankingLoop]
  | cons b bs ih =>
    simp only [rankingLoop, List.length_append]
    rw [rboxLoop_snd]
    have h1 := rboxLoop_length (rboxPress b) b.items r
    have h2 := ih (r + (rboxLoop (rboxPress b) b.items r).1.length)
    omega

-- ==============================
-- Claim theorems
-- ==============================

/-- C1 counterexample: the server.js `callAI` sends the bare `flash` alias
to the unsupported-model error, not to the Gemini call, refuting the claim
that identifiers containing the `flash` alias route to Gemini. -/
theorem C1_counterexample :
    callAI_sjs "flash" (some "sk-test") =
      RouteResult.unsupported "지원하지 않는 AI 모델입니다." ∧
    callAI_sjs "flash" (some "sk-test") ≠
      RouteResult.routed Provider.gemini "sk-test" := by
  decide

/-- C1 (amended): the server.js `callAI` routes identifiers containing
`gpt` (case-insensitively) to OpenAI, otherwise identifiers containing
`gemini` to Gemini, and raises the unsupported-model error for everything
else — the `flash` alias alone is not routed.  The part_002/part_003
`callAI` routes empty identifiers, identifiers containing `gpt`, and
identifiers starting with `o` to OpenAI first; among the rest, those
containing `gemini` or `flash` go to Gemini and all others default to
OpenAI. -/
theorem C1_callAI_dispatch :
    (∀ (model : String) (key : Option String), falsyOpt key = false →
      (containsSub (lowerStr model) "gpt" = true →
        callAI_sjs model key =
          .routed .openai (trimChars (key.getD ""))) ∧
      (containsSub (lowerStr model) "gpt" = false →
        containsSub (lowerStr model) "gemini" = true →
        callAI_sjs model key =
          .routed .gemini (trimChars (key.getD ""))) ∧
      (containsSub (lowerStr model) "gpt" = false →
        containsSub (lowerStr model) "gemini" = false →
        callAI_sjs model key = .unsupported "지원하지 않는 AI 모델입니다.")) ∧
    (∀ model : Option String,
      (lowerStr (model.getD "") = "" ∨
          containsSub (lowerStr (model.getD "")) "gpt" = true ∨
          startsWithL (lowerStr (model.getD "")) "o" = true →
        callAI_p2 model = .openai) ∧
      (lowerStr (model.getD "") ≠ "" →
        containsSub (lowerStr (model.getD "")) "gpt" = false →
        startsWithL (lowerStr (model.getD "")) "o" = false →
        (containsSub (lowerStr (model.getD "")) "gemini" = true ∨
          containsSub (lowerStr (model.getD "")) "flash" = true) →
        callAI_p2 model = .gemini) ∧
      (lowerStr (model.getD "") ≠ "" →
        containsSub (lowerStr (model.getD "")) "gpt" = false →
        startsWithL (lowerStr (model.getD "")) "o" = false →
        containsSub (lowerStr (model.getD "")) "gemini" = false →
        containsSub (lowerStr (model.getD "")) "flash" = false →
        callAI_p2 model = .openai)) := by
  constructor
  · intro model key hk
    refine ⟨fun hg => ?_, fun hg hgem => ?_, fun hg hgem => ?_⟩ <;>
      simp [callAI_sjs, hk, hg, *]
  · intro model
    refine ⟨fun h => ?_, fun h1 h2 h3 h4 => ?_, fun h1 h2 h3 h4 h5 => ?_⟩
    · rcases h with h | h | h <;> simp [callAI_p2, h]
    · rcases h4 with h4 | h4 <;> simp [callAI_p2, h1, h2, h3, h4]
    · simp [callAI_p2, h1, h2, h3, h4, h5]

/-- C1 witness: a `gpt` identifier with a non-empty key is routed to the
OpenAI call by the server.js dispatcher. -/
theorem C1_witness :
    callAI_sjs "gpt-4o-mini" (some "sk-abc") =
      RouteResult.routed Provider.openai "sk-abc" := by
  have h := (C1_callAI_dispatch.1 "gpt-4o-mini" (some "sk-abc")
    (by decide)).1 (by decide)
  exact h.trans (by decide)

/-- C2 counterexample: the part_002 titles handler answers a parse failure
with HTTP 500 and an error body — a hard failure, not the fallback-shaped
object the claim promises. -/
theorem C2_counterexample :
    titlesHandler_p2 (some "기사 본문") (.ok "no json at all")
        (fun _ => none) =
      ⟨500, .errorObj "AI 응답(JSON) 파싱에 실패했습니다."⟩ ∧
    (titlesHandler_p2 (some "기사 본문") (.ok "no json at all")
        (fun _ => none)).status ≠ 200 := by
  decide

/-- C2 (amended): in the server.js variant the titles and thumbnail-copies
handlers answer every AI-call failure and every parse failure with HTTP 200
and the documented fallback object; in the part_002 variant a parse failure
is instead answered with HTTP 500 and an error body. -/
theorem C2_jsonFallback :
    (∀ (α : Type) (parse : String → Option α) (e : String),
      titlesHandler_sjs (.error e) parse =
        ⟨200, .titlesObj ["에러 발생: 내용을 확인하세요"] []⟩) ∧
    (∀ (α : Type) (parse : String → Option α) (r : String),
      parse ((jsonSpan r).getD r) = none →
      titlesHandler_sjs (.ok r) parse =
        ⟨200, .titlesObj ["에러 발생: 내용을 확인하세요"] []⟩) ∧
    (∀ (α : Type) (parse : String → Option α) (e : String),
      thumbHandler_sjs (.error e) parse =
        ⟨200, .thumbsObj ["에러 발생"] [] []⟩) ∧
    (∀ (α : Type) (parse : String → Option α) (r : String),
      parse ((jsonSpan r).getD r) = none →
      thumbHandler_sjs (.ok r) parse =
        ⟨200, .thumbsObj ["에러 발생"] [] []⟩) ∧
    (∀ (text : Option String) (parse : String → Option TitlesFields)
        (raw : String), falsyOpt text = false →
      parse ((jsonSpan (stripFences raw)).getD (stripFences raw)) = none →
      titlesHandler_p2 text (.ok raw) parse =
        ⟨500, .errorObj "AI 응답(JSON) 파싱에 실패했습니다."⟩) := by
  refine ⟨fun α parse e => rfl, fun α parse r hp => ?_, fun α parse e => rfl,
    fun α parse r hp => ?_, fun text parse raw ht hp => ?_⟩
  · simp [titlesHandler_sjs, hp]
  · simp [thumbHandler_sjs, hp]
  · simp [titlesHandler_p2, ht, hp]

/-- C2 witness: an irreparable model response makes the server.js titles
handler answer 200 with the fallback object. -/
theorem C2_witness :
    titlesHandler_sjs (.ok "totally garbled")
        (fun _ => (none : Option TitlesFields)) =
      ⟨200, .titlesObj ["에러 발생: 내용을 확인하세요"] []⟩ :=
  C2_jsonFallback.2.1 TitlesFields (fun _ => none) "totally garbled"
    (by decide)

/-- C3: assuming every candidate href on the page is either an absolute
`http(s)` URL or a site-relative path, every item emitted by the server.js
and part_003 section scrapers has a non-empty title and an absolute link,
and candidates failing the title/href checks are dropped without changing
the output. -/
theorem C3_newsItem_invariants :
    (∀ (cands : List LiCand) (r : Nat),
      (∀ c ∈ cands, candHrefOk c = true) →
      ∀ it ∈ scrapeLoop_sjs cands r, it.title ≠ "" ∧ absUrl it.link = true) ∧
    (∀ (cands : List Cand3) (r : Nat),
      (∀ c ∈ cands, cand3HrefOk c = true) →
      ∀ it ∈ scrapeLoop_p3 cands r, it.title ≠ "" ∧ absUrl it.link = true) ∧
    (∀ (c : LiCand) (cs : List LiCand) (r : Nat), liDropped c = true →
      scrapeLoop_sjs (c :: cs) r = scrapeLoop_sjs cs r) ∧
    (∀ (c : Cand3) (cs : List Cand3) (r : Nat), c3Dropped c = true →
      scrapeLoop_p3 (c :: cs) r = scrapeLoop_p3 cs r) := by
  refine ⟨?_, ?_, scrapeLoop_sjs_skip, scrapeLoop_p3_skip⟩
  · intro cands r hok it hit
    obtain ⟨c, hc, h, hhref, hne, htitle, hT, hlink, _⟩ :=
      scrapeLoop_sjs_shape cands r it hit
    refine ⟨hT, ?_⟩
    have hshape : hrefShapeOk h = true := by
      have hcand := hok c hc
      unfold candHrefOk at hcand
      rw [hhref] at hcand
      simpa using hcand
    rw [hlink]
    exact absUrl_makeLink hshape
  · intro cands r hok it hit
    obtain ⟨c, hc, a, hch, hf, htitle, hT, hlink⟩ :=
      scrapeLoop_p3_shape cands r it hit
    refine ⟨hT, ?_⟩
    obtain ⟨h, hh, hne⟩ := anchorHref_of_notFalsy hf
    have hshape : hrefShapeOk h = true :=
      hrefShapeOk_of_anchor (chooseAnchor_shapeOk (hok c hc) hch) hh
    rw [hlink, hh]
    exact absUrl_makeLink hshape

/-- C3 witness: a concrete candidate with a relative href is emitted with a
non-empty title and an absolute link. -/
theorem C3_witness :
    ("정부 발표" : String) ≠ "" ∧
      absUrl "https://news.naver.com/main/read.naver?id=1" = true := by
  have h := C3_newsItem_invariants.1
    [⟨some "정부 발표", "", some "/main/read.naver?id=1"⟩] 1
    (by intro c hc; simp only [List.mem_singleton] at hc; subst hc; decide)
    ⟨1, "정부 발표", "https://news.naver.com/main/read.naver?id=1", "정부 발표"⟩
    (by decide)
  exact h

/-- C4: the server.js section list never exceeds 50 items and the part_003
ranking list never exceeds 200, and in both the rank fields are exactly
`1, 2, ..., n` in emission order, for every candidate input — so they are
1-based, contiguous, strictly increasing and independent of any rank in the
source markup. -/
theorem C4_bound_and_ranks :
    (∀ cands : List LiCand,
      (scrapeLoop_sjs cands 1).length ≤ 50 ∧
      (scrapeLoop_sjs cands 1).map NewsItem.rank =
        List.range' 1 (scrapeLoop_sjs cands 1).length) ∧
    (∀ boxes : List RBox,
      (rankingLoop boxes 1).length ≤ 200 ∧
      (rankingLoop boxes 1).map RankItem.rank =
        List.range' 1 (rankingLoop boxes 1).length) := by
  constructor
  · intro cands
    refine ⟨?_, scrapeLoop_sjs_rank_map cands 1⟩
    have := scrapeLoop_sjs_length cands 1
    omega
  · intro boxes
    refine ⟨?_, rankingLoop_rank_map boxes 1⟩
    have := rankingLoop_length boxes 1
    omega

/-- C5 counterexample: the server.js resolver does not pass the 3-digit
code `104` through unmodified — it falls back to the default `100`. -/
theorem C5_counterexample :
    resolveSid_sjs "104" = "100" ∧ ("100" : String) ≠ "104" := by
  decide

/-- C5 (amended): in the part_002/part_003 resolver, trimmed 3-digit codes
pass through unchanged, known labels resolve through the table, and all
other inputs (including absent and empty) fall back to `100`; the server.js
resolver consults only its label table, so numeric codes also fall back to
`100`.  Both resolvers are total functions. -/
theorem C5_categoryResolution :
    (∀ s : String, isDigit3 (trimChars s) = true →
      resolveSid_v2 (some s) = trimChars s) ∧
    (∀ s : String, s ≠ "" → isDigit3 (trimChars s) = false →
      labelToCode (trimChars s) = none → resolveSid_v2 (some s) = "100") ∧
    (∀ s code : String, s ≠ "" → isDigit3 (trimChars s) = false →
      labelToCode (trimChars s) = some code → resolveSid_v2 (some s) = code) ∧
    (resolveSid_v2 none = "100" ∧ resolveSid_v2 (some "") = "100") ∧
    (resolveSid_v2 (some "정치") = "100" ∧ resolveSid_v2 (some "경제") = "101" ∧
      resolveSid_v2 (some "사회") = "102" ∧
      resolveSid_v2 (some "생활/문화") = "103" ∧
      resolveSid_v2 (some "생활") = "103" ∧ resolveSid_v2 (some "세계") = "104" ∧
      resolveSid_v2 (some "IT/과학") = "105") ∧
    (∀ c : String, categoryMap_sjs c = none → resolveSid_sjs c = "100") ∧
    (∀ c code : String, categoryMap_sjs c = some code →
      resolveSid_sjs c = code) ∧
    (resolveSid_sjs "정치" = "100" ∧ resolveSid_sjs "세계" = "104") := by
  refine ⟨?_, ?_, ?_, by decide, by decide, ?_, ?_, by decide⟩
  · intro s h
    have hs : ¬ s = "" := by
      intro he
      subst he
      revert h
      decide
    simp [resolveSid_v2, falsyOpt, hs, h]
  · intro s hs h hl
    simp [resolveSid_v2, falsyOpt, hs, h, hl]
  · intro s code hs h hl
    simp [resolveSid_v2, falsyOpt, hs, h, hl]
  · intro c h
    simp [resolveSid_sjs, h]
  · intro c code h
    simp [resolveSid_sjs, h]

/-- C5 witness: a padded 3-digit code passes through the part_002 resolver
trimmed but otherwise unmodified. -/
theorem C5_witness : resolveSid_v2 (some " 104 ") = trimChars " 104 " :=
  C5_categoryResolution.1 " 104 " (by decide)

/-- C6 counterexample: in the part_002 variant, an absent caller credential
with a configured environment default proceeds to the outbound OpenAI
request instead of failing with the missing-credential error. -/
theorem C6_counterexample :
    callOpenAIKey_p2 none (some "env-default-key") =
      OpenAICallStep.httpPost "env-default-key" ∧
    callOpenAIKey_p2 none (some "env-default-key") ≠
      OpenAICallStep.missingKey "OpenAI API 키가 설정되어 있지 않습니다." := by
  decide

/-- C6 (amended): the server.js `callAI` fails with the missing-credential
error before any provider dispatch whenever the caller credential is absent
or empty; the part_002 variant falls back to the environment default inside
the provider function and fails with its missing-credential error, before
the outbound HTTP request, only when that default is also absent or
empty. -/
theorem C6_missingCredential :
    (∀ (model : String) (key : Option String), falsyOpt key = true →
      callAI_sjs model key = .missingKey "API 키가 없습니다.") ∧
    (∀ apiKey envKey : Option String, falsyOpt apiKey = true →
      falsyOpt envKey = true →
      callOpenAIKey_p2 apiKey envKey =
        .missingKey "OpenAI API 키가 설정되어 있지 않습니다.") := by
  constructor
  · intro model key hk
    simp [callAI_sjs, hk]
  · intro a e ha he
    simp [callOpenAIKey_p2, jsOrOpt, ha, he]

/-- C6 witness: an absent key makes the server.js router fail immediately. -/
theorem C6_witness :
    callAI_sjs "gpt-4o" none = RouteResult.missingKey "API 키가 없습니다." :=
  C6_missingCredential.1 "gpt-4o" none (by decide)

/-- C7 counterexample: the server.js script-transform handler performs no
validation — with `text` absent it still reaches the router instead of
failing with a 400 bad-request response. -/
theorem C7_counterexample :
    isBadRequest (scriptTransformStep_sjs none (some "차분한 설명")
      (some "10분") (some "gpt-4o") (some "sk-1")) = false ∧
    scriptTransformStep_sjs none (some "차분한 설명") (some "10분")
        (some "gpt-4o") (some "sk-1") =
      .callRouter "유튜브 대본 작가입니다. 콘셉트:차분한 설명, 분량:10분. 한국어로 재구성하세요."
        none (some "gpt-4o") (some "sk-1") := by
  decide

/-- C7 (amended): the part_002 script-transform handler rejects an absent
or empty `text` with the field-specific 400 message and never rejects a
non-empty one, while the server.js handler never returns a bad-request
response at all and always proceeds to the router. -/
theorem C7_validation :
    (∀ text instruction model apiKey : Option String, falsyOpt text = true →
      scriptTransformStep_p2 text instruction model apiKey =
        .badRequest "재구성할 대본 텍스트를 입력해주세요.") ∧
    (∀ text instruction model apiKey : Option String, falsyOpt text = false →
      isBadRequest (scriptTransformStep_p2 text instruction model apiKey) =
        false) ∧
    (∀ text concept lengthOption model apiKey : Option String,
      isBadRequest (scriptTransformStep_sjs text concept lengthOption model
        apiKey) = false) := by
  refine ⟨fun t i m k ht => ?_, fun t i m k ht => ?_, fun t c l m k => rfl⟩
  · simp [scriptTransformStep_p2, ht]
  · simp [scriptTransformStep_p2, ht, isBadRequest]

/-- C7 witness: an empty `text` is rejected by the part_002 handler with
the field-specific message. -/
theorem C7_witness :
    scriptTransformStep_p2 (some "") (some "지시") (some "gpt-4o") (some "k") =
      HandlerStep.badRequest "재구성할 대본 텍스트를 입력해주세요." :=
  C7_validation.1 (some "") (some "지시") (some "gpt-4o") (some "k")
    (by decide)

/-- C8: a failed fetch (network error, timeout or non-2xx response, all of
which reject the axios promise) makes both section scrapers fail with their
scrape-error message, while a successful fetch whose candidates all fail
the extraction checks yields the empty list — not an error, not null. -/
theorem C8_scrapeFailure_empty :
    (∀ e : String, scrapeNaverNews_sjs (.error e) = .error "뉴스 크롤링 실패") ∧
    (∀ e : String, scrapeNaverNews_p3 (.error e) =
      .error ("네이버 뉴스 수집 실패: " ++ e)) ∧
    (∀ cands : List LiCand, (∀ c ∈ cands, liDropped c = true) →
      scrapeNaverNews_sjs (.ok cands) = .ok []) ∧
    (∀ cands : List Cand3, (∀ c ∈ cands, c3Dropped c = true) →
      scrapeNaverNews_p3 (.ok cands) = .ok []) := by
  refine ⟨fun e => rfl, fun e => rfl, fun cands h => ?_, fun cands h => ?_⟩
  · simp [scrapeNaverNews_sjs, scrapeLoop_sjs_dropAll cands 1 h]
  · simp [scrapeNaverNews_p3, scrapeLoop_p3_dropAll cands 1 h]

/-- C8 witness: a successful fetch with one unusable candidate returns the
empty list. -/
theorem C8_witness :
    scrapeNaverNews_sjs (.ok [⟨none, "광고 배너", none⟩]) = .ok [] :=
  C8_scrapeFailure_empty.2.2.1 [⟨none, "광고 배너", none⟩]
    (by intro c hc; simp only [List.mem_singleton] at hc; subst hc; decide)

/-- C9 counterexample: the part_003 extraction resolves the title from the
anchor's visible text even when a non-empty `title` attribute is present —
the emitted title is the text `BBB`, not the attribute `AAA`, refuting the
attribute-preference claim for that variant. -/
theorem C9_counterexample :
    scrapeLoop_p3 [⟨some ⟨"BBB", some "AAA", some "/x"⟩, none,
      "", "", "", "", "", "", ""⟩] 1 =
      [⟨1, "BBB", "https://news.naver.com/x", "", "", "", none⟩] ∧
    ("BBB" : String) ≠ "AAA" := by
  decide

/-- C9 (amended): the server.js extraction prefers a present non-empty
`title` attribute over the visible text (and has no placeholder skip),
whereas the part_003 extraction prefers the visible text and consults the
attribute only when the text is empty; part_003 skips candidates whose
resolved title equals the `동영상기사` placeholder. -/
theorem C9_titleResolution :
    (∀ (c : LiCand) (t : String), c.attrTitle = some t → t ≠ "" →
      emitTitle_sjs c = t) ∧
    (∀ c : LiCand, c.attrTitle = none ∨ c.attrTitle = some "" →
      emitTitle_sjs c = trimChars c.text) ∧
    (∀ a : Anchor, a.text ≠ "" →
      resolveTitle3 a = trimChars (collapseWs a.text)) ∧
    (∀ a : Anchor, a.text = "" →
      resolveTitle3 a = trimChars (collapseWs (a.attrTitle.getD ""))) ∧
    (∀ (c : Cand3) (cs : List Cand3) (r : Nat) (a : Anchor),
      chooseAnchor c = some a → resolveTitle3 a = "동영상기사" →
      scrapeLoop_p3 (c :: cs) r = scrapeLoop_p3 cs r) := by
  refine ⟨?_, ?_, ?_, ?_, ?_⟩
  · intro c t hat ht
    simp [emitTitle_sjs, hat, ht]
  · intro c h
    rcases h with h | h <;> simp [emitTitle_sjs, h]
  · intro a ht
    simp [resolveTitle3, jsOrStr, ht]
  · intro a ht
    cases hat : a.attrTitle <;> simp [resolveTitle3, jsOrStr, ht, hat]
  · intro c cs r a hch ht
    apply scrapeLoop_p3_skip
    unfold c3Dropped
    rw [hch]
    simp [ht]

/-- C9 witness: the server.js resolver does prefer the attribute. -/
theorem C9_witness :
    emitTitle_sjs ⟨some "속보 제목", "아이콘", some "/u"⟩ = "속보 제목" :=
  C9_titleResolution.1 ⟨some "속보 제목", "아이콘", some "/u"⟩ "속보 제목" rfl
    (by decide)

/-- C10 counterexample: in the part_001 variant a 101-character resolved
title is emitted with the title field truncated to 100 characters while the
summary keeps all 101, so summary and title differ. -/
theorem C10_counterexample :
    (scrapeLoop_p1 [⟨none, String.mk (List.replicate 101 'a'), some "/x",
      ""⟩] 1).map (fun it => (it.title, it.summary)) =
      [(String.mk (List.replicate 100 'a'),
        String.mk (List.replicate 101 'a'))] ∧
    String.mk (List.replicate 100 'a') ≠
      String.mk (List.replicate 101 'a') := by
  decide

/-- C10 (amended): in the server.js variant every emitted item's summary is
exactly its title; in the part_001 variant the title field is the summary
truncated to 100 characters, so the two coincide only for titles of at most
100 characters. -/
theorem C10_summaryDuplicatesTitle :
    (∀ (cands : List LiCand) (r : Nat), ∀ it ∈ scrapeLoop_sjs cands r,
      it.summary = it.title) ∧
    (∀ (cands : List LiCandP1) (r : Nat), ∀ it ∈ scrapeLoop_p1 cands r,
      it.title = takeStr 100 it.summary) := by
  constructor
  · intro cands r it hit
    obtain ⟨c, hc, h, h1, h2, h3, h4, h5, h6⟩ :=
      scrapeLoop_sjs_shape cands r it hit
    rw [h6, h3]
  · intro cands r it hit
    obtain ⟨c, hc, h1, h2⟩ := scrapeLoop_p1_shape cands r it hit
    rw [h1, h2]

/-- C10 witness: a concrete server.js item carries its title as summary. -/
theorem C10_witness :
    NewsItem.summary ⟨1, "물가 상승", "https://news.naver.com/a", "물가 상승"⟩ =
      NewsItem.title ⟨1, "물가 상승", "https://news.naver.com/a", "물가 상승"⟩ :=
  C10_summaryDuplicatesTitle.1 [⟨some "물가 상승", "", some "/a"⟩] 1
    ⟨1, "물가 상승", "https://news.naver.com/a", "물가 상승"⟩ (by decide)

end NewsYT
